import Mathlib

/-!
Verification development for the hallucination-hunter core pipeline
(evidence retrieval, verification fusion, drift mitigation, trust scoring).

Numbers are modelled as rationals (the source uses Python floats; all the
thresholds and weights involved are small decimal literals, written here as
the exact rationals they denote).  External collaborators that live outside
the repository sources (the NLI classifier, the sentence-embedding model and
difflib's string-similarity ratio) are passed in as explicit function
parameters of the operations that call them, mirroring the dependency
injection described in the design notes.
-/

/-! ### Small Python-semantics helpers -/

/-- Does the needle occur at the head of the haystack? -/
def leadEq : List Char → List Char → Bool
  | [], _ => true
  | _ :: _, [] => false
  | c :: cs, d :: ds => c == d && leadEq cs ds

/-- Does the needle occur anywhere in the haystack? -/
def containsChars (needle : List Char) : List Char → Bool
  | [] => needle.isEmpty
  | d :: ds => leadEq needle (d :: ds) || containsChars needle ds

/-- Python's substring test `needle in haystack` (the empty needle is a
member of every string). -/
def pySubstr (needle haystack : String) : Bool :=
  needle.isEmpty || containsChars needle.toList haystack.toList

/-- Split on whitespace runs, dropping empty pieces (`acc` holds the
current word, reversed). -/
def splitWsAux : List Char → List Char → List String
  | [], acc => if acc.isEmpty then [] else [String.mk acc.reverse]
  | c :: cs, acc =>
    if c.isWhitespace then
      if acc.isEmpty then splitWsAux cs [] else String.mk acc.reverse :: splitWsAux cs []
    else splitWsAux cs (c :: acc)

/-- Python's `str.split()` with no argument: split on runs of whitespace,
dropping empty pieces. -/
def pySplitWs (s : String) : List String :=
  splitWsAux s.toList []

/-- Python's `str.lower()` (character-wise, which covers the ASCII inputs
of this pipeline). -/
def pyLower (s : String) : String :=
  String.mk (s.toList.map Char.toLower)

/-- Python's `str.strip()`: drop leading and trailing whitespace. -/
def pyTrim (s : String) : String :=
  String.mk (((s.toList.dropWhile Char.isWhitespace).reverse.dropWhile
    Char.isWhitespace).reverse)

/-- Python's `max` over a list of numbers (the `[]` case never arises at the
call sites, which guard on non-emptiness; it is given the junk value 0). -/
def listMax : List ℚ → ℚ
  | [] => 0
  | x :: xs => xs.foldl max x

/-- Python's `a or b` for an optional string `a`: the default is taken when
`a` is `None` or empty (falsy). -/
def pyOr (a : Option String) (b : String) : String :=
  match a with
  | some s => if s.isEmpty then b else s
  | none => b

/-- Python's `round(x, 1)` (round half to even, on the exact rational). -/
def pyRound1 (x : ℚ) : ℚ :=
  let y := x * 10
  let f : ℤ := ⌊y⌋
  let r := y - (f : ℚ)
  let n : ℤ :=
    if r < 1/2 then f
    else if (1 : ℚ)/2 < r then f + 1
    else if f % 2 = 0 then f else f + 1
  (n : ℚ) / 10

/-! ### Numeric-literal extraction

`VerificationLayer._check_numerical_consistency` extracts numbers with the
regex `\b\d+\.?\d*\b` via `re.findall`.  The scanner below reproduces that
regex's left-to-right, non-overlapping, greedy-with-backtracking semantics
over ASCII text (`\w`, `\d` restricted to ASCII, which covers the inputs of
this pipeline). -/

/-- A regex word character (`\w`): letters, digits, underscore. -/
def wordChar (c : Char) : Bool :=
  c.isAlphanum || c == '_'

/-- Longest digit run at the front of the character list, and the rest. -/
def digitSpan (cs : List Char) : List Char × List Char :=
  (cs.takeWhile Char.isDigit, cs.dropWhile Char.isDigit)

/-- Word boundary holds before a digit at the current position iff we are at
the start of the text or the previous character is not a word character. -/
def boundaryBefore (prev : Option Char) : Bool :=
  match prev with
  | none => true
  | some c => !(wordChar c)

/-- Try to match `\b\d+\.?\d*\b` at the current position, given the previous
character.  Returns the matched characters and the remaining input.  The
case analysis spells out the greedy match with backtracking over the
optional dot and the trailing digit run. -/
def matchNumAt (prev : Option Char) (cs : List Char) : Option (List Char × List Char) :=
  match cs with
  | [] => none
  | c :: _ =>
    if !(c.isDigit) || !(boundaryBefore prev) then none
    else
      let s1 := digitSpan cs
      match s1.2 with
      | '.' :: rest2 =>
        let s2 := digitSpan rest2
        if s2.1.isEmpty then
          match rest2 with
          | c3 :: _ => if wordChar c3 then some (s1.1 ++ ['.'], rest2) else some (s1.1, s1.2)
          | [] => some (s1.1, s1.2)
        else
          match s2.2 with
          | [] => some (s1.1 ++ '.' :: s2.1, [])
          | c3 :: _ =>
            if wordChar c3 then some (s1.1 ++ ['.'], rest2)
            else some (s1.1 ++ '.' :: s2.1, s2.2)
      | c2 :: _ => if wordChar c2 then none else some (s1.1, s1.2)
      | [] => some (s1.1, [])

/-- Fueled scan: walk the text, collecting non-overlapping matches.  The
fuel is set to more than the text length by the caller, which suffices since
every step consumes at least one character. -/
def scanNums : Nat → Option Char → List Char → List (List Char)
  | 0, _, _ => []
  | _, _, [] => []
  | fuel + 1, prev, c :: cs =>
    match matchNumAt prev (c :: cs) with
    | some (m, rest) => m :: scanNums fuel m.getLast? rest
    | none => scanNums fuel (some c) cs

/-- All numeric literals of a string, in order, as matched by
`re.findall(r'\b\d+\.?\d*\b', s)`. -/
def findNumbers (s : String) : List String :=
  (scanNums (s.length + 1) none s.toList).map (fun l => String.mk l)

/-! ### Constants (src/config/constants.py) -/

/-- Classification categories for claims (`ClaimCategory`). -/
inductive ClaimCategory where
  | supported
  | contradicted
  | unverifiable
deriving DecidableEq, Repr

/-- Human-readable confidence levels (`ConfidenceLevel`). -/
inductive ConfidenceLevel where
  | certain
  | likely
  | uncertain
deriving DecidableEq, Repr

/-- `ConfidenceLevel.from_score`. -/
def ConfidenceLevel.from_score (score : ℚ) : ConfidenceLevel :=
  if 0.85 ≤ score then .certain
  else if 0.6 ≤ score then .likely
  else .uncertain

/-- Trust level categories (`TrustLevel` in src/layers/scoring.py). -/
inductive TrustLevel where
  | high
  | medium
  | low
  | critical
deriving DecidableEq, Repr

/-- A trust-score zone `(min, max, label, color)` (`TrustZone`). -/
def TrustZone.HIGH : ℚ × ℚ × String × String := (80, 100, "Good", "#10b981")

/-- `TrustZone.MEDIUM`. -/
def TrustZone.MEDIUM : ℚ × ℚ × String × String := (50, 80, "Review Needed", "#f59e0b")

/-- `TrustZone.LOW`. -/
def TrustZone.LOW : ℚ × ℚ × String × String := (0, 50, "Unreliable", "#ef4444")

/-- `TrustZone.get_zone`. -/
def TrustZone.get_zone (score : ℚ) : ℚ × ℚ × String × String :=
  if 80 ≤ score then TrustZone.HIGH
  else if 50 ≤ score then TrustZone.MEDIUM
  else TrustZone.LOW

/-! ### Claim intelligence data model (src/layers/claim_intelligence.py)

Only the fields consumed by the retrieval / verification / drift / scoring
layers are carried (`claim_type`, source spans, `sub_claims` and the free
`metadata` dictionary are presentation-only there and are omitted). -/

/-- An extracted entity (`Entity`). -/
structure Entity where
  text : String
  label : String
  severity_weight : ℚ
deriving DecidableEq, Repr

/-- An atomic claim (`Claim`). -/
structure Claim where
  claim_id : String
  text : String
  entities : List Entity
deriving DecidableEq, Repr

/-- `Claim.max_severity_weight`: 1.0 when there are no entities, otherwise
the maximum entity severity weight. -/
def Claim.max_severity_weight (c : Claim) : ℚ :=
  match c.entities with
  | [] => 1
  | e :: es => (es.map (fun x => x.severity_weight)).foldl max e.severity_weight

/-! ### Ingestion data model (src/layers/ingestion.py)

`IndexedChunk` keeps the fields the retrieval and verification layers read.
The embedding vector and character offsets are owned by the (external)
vector index and are not consulted by the verified logic; the free-form
`metadata` dictionary is represented by its two keys that the code reads
(`line_start` / `line_end`). -/

/-- A chunk of source text with its location metadata (`IndexedChunk`). -/
structure IndexedChunk where
  chunk_id : String
  content : String
  document_name : String
  page_number : Option Nat
  line_start : Option Nat
  line_end : Option Nat
deriving DecidableEq, Repr

/-! ### Retrieval data model (src/layers/retrieval.py) -/

/-- Result of evidence retrieval for a claim (`EvidenceResult`). -/
structure EvidenceResult where
  claim_id : String
  claim_text : String
  evidence_chunks : List IndexedChunk
  scores : List ℚ
  retrieval_method : String
  top_evidence : Option String
  citation : Option String
deriving DecidableEq, Repr

/-- `EvidenceResult.get_combined_evidence`: join the top chunks' contents
with blank lines. -/
def EvidenceResult.get_combined_evidence (er : EvidenceResult) (max_chunks : Nat := 3) : String :=
  String.intercalate ("\n\n") ((er.evidence_chunks.take max_chunks).map (fun c => c.content))

/-- `EvidenceResult.get_citation_string`: document name of the first chunk,
then `Page n` when the page number is truthy, then `Lines a-b` when the
`line_start` metadata is truthy (`line_end` prints as `?` when absent),
comma-joined. -/
def EvidenceResult.get_citation_string (er : EvidenceResult) : String :=
  match er.evidence_chunks with
  | [] => "No evidence found"
  | chunk :: _ =>
    let parts := [chunk.document_name]
    let parts :=
      match chunk.page_number with
      | some p => if p ≠ 0 then parts ++ ["Page " ++ toString p] else parts
      | none => parts
    let parts :=
      match chunk.line_start with
      | some a =>
        if a ≠ 0 then
          parts ++ ["Lines " ++ toString a ++ "-" ++
            (match chunk.line_end with
             | some b => toString b
             | none => ("?"))]
        else parts
      | none => parts
    String.intercalate (", ") parts

/-! ### Verification data model (src/layers/verification.py) -/

/-- Modelled from the spec: the NLI classifier result type (`NLIResult` in
src/models/nli_model.py, which is not among the sources).  It carries the
entailment / contradiction / neutral probability triple together with the
classifier's own category and confidence, as consumed by the verification
layer (the free-form `raw_scores` dictionary is omitted). -/
structure NLIResult where
  category : ClaimCategory
  confidence : ℚ
  confidence_level : ConfidenceLevel
  entailment_score : ℚ
  contradiction_score : ℚ
  neutral_score : ℚ
deriving DecidableEq, Repr

/-- Result of entity matching between claim and evidence (`EntityMatch`).
The human-readable `details` string carries the source's message text; the
formatted similarity number interpolated by the source is not reproduced. -/
structure EntityMatch where
  claim_entity : Entity
  evidence_match : Option String
  similarity : ℚ
  is_match : Bool
  is_contradiction : Bool
  details : String
deriving DecidableEq, Repr

/-- Complete verification result for a claim (`VerificationResult`). -/
structure VerificationResult where
  claim_id : String
  claim_text : String
  category : ClaimCategory
  confidence : ℚ
  confidence_level : ConfidenceLevel
  nli_result : NLIResult
  entity_matches : List EntityMatch
  evidence_used : String
  citation : String
  explanation : String
  entity_consistency_score : ℚ
  numerical_accuracy_score : ℚ
deriving DecidableEq, Repr

/-! ### Verification layer operations

The external collaborators are explicit parameters:
`nli : String → List String → NLIResult` stands for
`NLIModel.classify_with_multiple_evidences(claim, evidences, "max")`, and
`sim : String → String → ℚ` stands for
the similarity ratio of difflib, always in `[0, 1]`.
`thr` is the configured `entity_match_threshold` (default 0.9). -/

/-- `VerificationLayer._find_similar_entity`: best-matching n-gram
(n = 1..3) of the evidence text by string-similarity ratio; ties keep the
earlier candidate. -/
def bestStep (sim : String → String → ℚ) (entity : String) (best : String × ℚ)
    (c : String) : String × ℚ :=
  let score := sim (pyLower entity) (pyLower c)
  if best.2 < score then (c, score) else best

/-- The loop of `_find_similar_entity`: fold the candidates, keeping the
strictly best score (ties keep the earlier candidate). -/
def find_similar_entity (sim : String → String → ℚ) (entity : String) (text : String) :
    String × ℚ :=
  let words := pySplitWs text
  let cands := (List.range' 1 (min 3 words.length)).flatMap (fun n =>
    (List.range (words.length - n + 1)).map (fun i =>
      String.intercalate (" ") ((words.drop i).take n)))
  cands.foldl (bestStep sim entity) (("", 0) : String × ℚ)

/-- `VerificationLayer._check_entity_consistency`: exact case-insensitive
substring match scores 1.0; otherwise the best fuzzy n-gram match is a match
at or above the threshold, a possible contradiction in `[0.5, thr)`, and not
found below 0.5. -/
def check_entity_consistency (sim : String → String → ℚ) (thr : ℚ)
    (claim : Claim) (evidence : String) : List EntityMatch :=
  let evidence_lower := pyLower evidence
  claim.entities.map (fun e =>
    let entity_lower := pyLower e.text
    if pySubstr entity_lower evidence_lower then
      { claim_entity := e, evidence_match := some e.text, similarity := 1,
        is_match := true, is_contradiction := false,
        details := "Exact match found in evidence" }
    else
      let best := find_similar_entity sim e.text evidence
      if thr ≤ best.2 then
        { claim_entity := e, evidence_match := some best.1, similarity := best.2,
          is_match := true, is_contradiction := false,
          details := "Similar match" }
      else if (1 : ℚ)/2 ≤ best.2 then
        { claim_entity := e, evidence_match := some best.1, similarity := best.2,
          is_match := false, is_contradiction := true,
          details := "Possible entity mismatch" }
      else
        { claim_entity := e, evidence_match := none, similarity := 0,
          is_match := false, is_contradiction := false,
          details := "Entity not found in evidence" })

/-- `VerificationLayer._check_numerical_consistency`: fraction of the
claim's numeric literals that appear verbatim among the evidence's numeric
literals; 1.0 when the claim has no numbers. -/
def check_numerical_consistency (claim_text evidence : String) : ℚ :=
  let claim_numbers := findNumbers claim_text
  let evidence_numbers := findNumbers evidence
  if claim_numbers.isEmpty then 1
  else ((claim_numbers.countP (fun n => evidence_numbers.contains n) : ℚ)) / claim_numbers.length

/-- `VerificationLayer._calculate_entity_score`: severity-weighted average
of matched entities' similarity over the total severity weight (1.0 when
there are no entities or no positive total weight). -/
def calculate_entity_score (ms : List EntityMatch) : ℚ :=
  if ms.isEmpty then 1
  else
    let total_weight := (ms.map (fun m => m.claim_entity.severity_weight)).sum
    let weighted_score :=
      ((ms.filter (fun m => m.is_match)).map
        (fun m => m.similarity * m.claim_entity.severity_weight)).sum
    if 0 < total_weight then weighted_score / total_weight else 1

/-- `VerificationLayer._fuse_signals`: the ordered decision rules combining
the NLI triple with the entity and numeric consistency signals. -/
def fuse_signals (nr : NLIResult) (entity_score numerical_score : ℚ)
    (entity_matches : List EntityMatch) : ClaimCategory × ℚ :=
  let has_entity_contradiction := entity_matches.any (fun m => m.is_contradiction)
  if 0.8 < nr.entailment_score ∧ 0.9 < entity_score ∧ 0.8 < numerical_score ∧
      has_entity_contradiction = false then
    (ClaimCategory.supported, min nr.entailment_score entity_score)
  else if 0.7 < nr.contradiction_score then
    (ClaimCategory.contradicted, nr.contradiction_score)
  else if has_entity_contradiction = true ∧ entity_score < 0.7 then
    (ClaimCategory.contradicted, max nr.contradiction_score (1 - entity_score))
  else if numerical_score < 0.5 then
    (ClaimCategory.contradicted, 0.7)
  else if 0.6 < nr.entailment_score ∧ 0.7 < entity_score ∧
      has_entity_contradiction = false then
    (ClaimCategory.supported, nr.entailment_score * entity_score)
  else
    (ClaimCategory.unverifiable, max nr.neutral_score 0.5)

/-- `VerificationLayer._generate_explanation` (templated per category; the
source's interpolated entity names are kept, its quote characters written as
escapes). -/
def generate_explanation (category : ClaimCategory) (nr : NLIResult)
    (entity_matches : List EntityMatch) : String :=
  let text : String :=
    match category with
    | ClaimCategory.supported =>
      let base := "The claim is supported by the evidence. " ++
        (if 0.9 < nr.entailment_score then ("Strong semantic alignment detected. ") else (""))
      let matched := entity_matches.filter (fun m => m.is_match)
      if matched.isEmpty then base
      else base ++ "Key entities verified: " ++
        String.intercalate (", ") ((matched.take 3).map (fun m => m.claim_entity.text)) ++ "."
    | ClaimCategory.contradicted =>
      let base := "The claim contradicts the evidence. " ++
        (if 0.7 < nr.contradiction_score then ("Semantic contradiction detected. ") else (""))
      let contras := entity_matches.filter (fun m => m.is_contradiction)
      base ++ String.join ((contras.take 2).map (fun m =>
        "Entity mismatch: claim says \x27" ++ m.claim_entity.text ++
        "\x27 but evidence has \x27" ++ (m.evidence_match.getD ("")) ++ "\x27. "))
    | ClaimCategory.unverifiable =>
      let base := "The claim cannot be fully verified from the available evidence. "
      let unmatched := entity_matches.filter
        (fun m => m.is_match = false ∧ m.is_contradiction = false)
      if unmatched.isEmpty then base
      else base ++ "Missing information for: " ++
        String.intercalate (", ") ((unmatched.take 3).map (fun m => m.claim_entity.text)) ++ "."
  pyTrim text

/-- `VerificationLayer._create_unverifiable_result`: the degraded verdict
used when the evidence is insufficient. -/
def create_unverifiable_result (claim : Claim) (reason : String) : VerificationResult :=
  { claim_id := claim.claim_id
    claim_text := claim.text
    category := ClaimCategory.unverifiable
    confidence := 0.5
    confidence_level := ConfidenceLevel.uncertain
    nli_result :=
      { category := ClaimCategory.unverifiable, confidence := 0.5,
        confidence_level := ConfidenceLevel.uncertain,
        entailment_score := 0, contradiction_score := 0, neutral_score := 1 }
    entity_matches := []
    evidence_used := ""
    citation := "No citation available"
    explanation := reason
    entity_consistency_score := 0
    numerical_accuracy_score := 0 }

/-- `VerificationLayer.verify_claim`: combine evidence text, run the NLI
collaborator on the top (≤ 3) chunks, check entity and numeric consistency,
and fuse the signals into a category and confidence. -/
def verify_claim (nli : String → List String → NLIResult) (sim : String → String → ℚ)
    (thr : ℚ) (claim : Claim) (evidence : EvidenceResult) : VerificationResult :=
  let evidence_text := evidence.get_combined_evidence 3
  if evidence_text = "" then create_unverifiable_result claim ("No evidence found")
  else
    let nr := nli claim.text ((evidence.evidence_chunks.take 3).map (fun c => c.content))
    let entity_matches := check_entity_consistency sim thr claim evidence_text
    let entity_score := calculate_entity_score entity_matches
    let numerical_score := check_numerical_consistency claim.text evidence_text
    let fused := fuse_signals nr entity_score numerical_score entity_matches
    { claim_id := claim.claim_id
      claim_text := claim.text
      category := fused.1
      confidence := fused.2
      confidence_level := ConfidenceLevel.from_score fused.2
      nli_result := nr
      entity_matches := entity_matches
      evidence_used := evidence_text
      citation := pyOr evidence.citation ("No citation available")
      explanation := generate_explanation fused.1 nr entity_matches
      entity_consistency_score := entity_score
      numerical_accuracy_score := numerical_score }

/-- `VerificationLayer.verify_claims_batch`: fails fast (raises
`ValueError`, modelled as `Except.error`) on a length mismatch, otherwise
verifies the claims pairwise in order. -/
def verify_claims_batch (nli : String → List String → NLIResult)
    (sim : String → String → ℚ) (thr : ℚ)
    (claims : List Claim) (evidences : List EvidenceResult) :
    Except String (List VerificationResult) :=
  if claims.length ≠ evidences.length then
    Except.error ("Claims and evidences must have same length")
  else
    Except.ok (List.zipWith (verify_claim nli sim thr) claims evidences)

/-! ### Drift mitigation (src/layers/drift.py)

The per-claim drift detector lives in src/models/drift_detector.py, which is
not among the sources; its result types are modelled from the spec. -/

/-- Modelled from the spec: a per-claim drift entry (`ClaimDrift` from the
missing src/models/drift_detector.py) — claim text, drift score and a
stability flag, as consumed by `DriftMitigationLayer`. -/
structure ClaimDrift where
  claim : String
  drift_score : ℚ
  is_stable : Bool
deriving DecidableEq, Repr

/-- Modelled from the spec: a drift report (`DriftReport` from the missing
src/models/drift_detector.py) — the list of per-claim drift entries. -/
structure DriftReport where
  claim_drifts : List ClaimDrift
deriving DecidableEq, Repr

/-- Verification result with drift adjustment applied
(`DriftAdjustedResult`).  `stability_note` carries the source's message text
without the interpolated drift number. -/
structure DriftAdjustedResult where
  original_result : VerificationResult
  drift_analysis : Option ClaimDrift
  adjusted_confidence : ℚ
  drift_penalty : ℚ
  is_stable : Bool
  stability_note : String
deriving DecidableEq, Repr

/-- `DriftMitigationLayer._find_claim_drift`: exact claim-text match first,
then the first entry whose embedding similarity (collaborator `emb`) exceeds
0.9; `none` when the report is absent or nothing matches. -/
def find_claim_drift (emb : String → String → ℚ) (claim_text : String)
    (report : Option DriftReport) : Option ClaimDrift :=
  match report with
  | none => none
  | some rep =>
    match rep.claim_drifts.find? (fun d => d.claim == claim_text) with
    | some d => some d
    | none => rep.claim_drifts.find? (fun d => decide ((9 : ℚ)/10 < emb claim_text d.claim))

/-- `DriftMitigationLayer._calculate_penalty`: zero up to the variance
threshold `vt`, then linear in the excess with slope `cp * 5`, capped at
0.5. -/
def calculate_penalty (vt cp : ℚ) (drift_score : ℚ) : ℚ :=
  if drift_score ≤ vt then 0
  else min ((drift_score - vt) * cp * 5) (1/2)

/-- The loop body of `adjust_verification_results`: the Python
`if claim_drift and not claim_drift.is_stable` branch applies the penalty,
everything else (stable entry or no matching entry) passes through. -/
def adjust_one (vt cp : ℚ) (r : VerificationResult) (claim_drift : Option ClaimDrift) :
    DriftAdjustedResult :=
  match claim_drift with
  | some cd =>
    if cd.is_stable = false then
      let penalty := calculate_penalty vt cp cd.drift_score
      { original_result := r, drift_analysis := some cd,
        adjusted_confidence := r.confidence * (1 - penalty),
        drift_penalty := penalty, is_stable := false,
        stability_note := "Claim shows variance across regenerations" }
    else
      { original_result := r, drift_analysis := some cd,
        adjusted_confidence := r.confidence, drift_penalty := 0,
        is_stable := true,
        stability_note := "Claim is stable across regenerations" }
  | none =>
    { original_result := r, drift_analysis := none,
      adjusted_confidence := r.confidence, drift_penalty := 0,
      is_stable := true,
      stability_note := "Claim is stable across regenerations" }

/-- `DriftMitigationLayer.adjust_verification_results`: wrap every
verification result, penalising the confidence of claims whose matched
drift entry is unstable and passing the rest through unchanged. -/
def adjust_verification_results (vt cp : ℚ) (emb : String → String → ℚ)
    (verification_results : List VerificationResult) (report : Option DriftReport) :
    List DriftAdjustedResult :=
  verification_results.map (fun r =>
    adjust_one vt cp r (find_claim_drift emb r.claim_text report))

/-! ### Scoring (src/layers/scoring.py) -/

/-- Statistics for each claim category (`CategoryStats`). -/
structure CategoryStats where
  supported : Nat
  contradicted : Nat
  unverifiable : Nat
deriving DecidableEq, Repr

/-- `CategoryStats.total`. -/
def CategoryStats.total (s : CategoryStats) : Nat :=
  s.supported + s.contradicted + s.unverifiable

/-- Breakdown of trust score components (`ScoreBreakdown`; the source field
`supported_ratio` is named `supported_share` here). -/
structure ScoreBreakdown where
  supported_share : ℚ
  supported_contribution : ℚ
  avg_confidence : ℚ
  confidence_contribution : ℚ
  drift_score : ℚ
  drift_contribution : ℚ
  severity_score : ℚ
  severity_contribution : ℚ
deriving DecidableEq, Repr

/-- Complete trust score with breakdown and metadata (`TrustScore`). -/
structure TrustScore where
  score : ℚ
  level : TrustLevel
  breakdown : ScoreBreakdown
  category_counts : CategoryStats
  total_claims : Nat
  flagged_claims : List String
  recommendations : List String
  zone : ℚ × ℚ × String × String
deriving DecidableEq, Repr

/-- `ScoringLayer._calculate_category_stats`: count results per category
(everything that is neither supported nor contradicted counts as
unverifiable). -/
def calculate_category_stats (results : List VerificationResult) : CategoryStats :=
  results.foldl (fun st r =>
    if r.category = ClaimCategory.supported then
      { st with supported := st.supported + 1 }
    else if r.category = ClaimCategory.contradicted then
      { st with contradicted := st.contradicted + 1 }
    else
      { st with unverifiable := st.unverifiable + 1 })
    { supported := 0, contradicted := 0, unverifiable := 0 }

/-- The dictionary `{c.claim_id: c for c in claims}` read back at a key:
the last claim with the given id wins. -/
def claimLookup (claims : List Claim) (id : String) : Option Claim :=
  claims.reverse.find? (fun c => c.claim_id == id)

/-- `ScoringLayer._calculate_severity_score`: plain contradicted fraction
when no claims are supplied (or the list is empty — Python truthiness);
otherwise the severity-weighted contradicted fraction using each claim's
maximum entity severity weight times the domain severity multiplier. -/
def calculate_severity_score (sevMul : ℚ) (results : List VerificationResult)
    (claims : Option (List Claim)) : ℚ :=
  match claims with
  | some (cl :: cls) =>
    let cmap := cl :: cls
    let tc := results.foldl (fun (acc : ℚ × ℚ) r =>
      match claimLookup cmap r.claim_id with
      | some c =>
        let w := c.max_severity_weight * sevMul
        (acc.1 + w,
         if r.category = ClaimCategory.contradicted then acc.2 + w else acc.2)
      | none => acc) ((0, 0) : ℚ × ℚ)
    if tc.1 = 0 then 0 else tc.2 / tc.1
  | _ =>
    let contradicted := results.filter (fun r => r.category = ClaimCategory.contradicted)
    if contradicted.isEmpty ∨ results.isEmpty then 0
    else (contradicted.length : ℚ) / results.length

/-- `ScoringLayer._determine_trust_level`: high, then medium, then
critical, then low — in this source order (the Python literal `0.3` is the
exact rational 3/10 here). -/
def determine_trust_level (score : ℚ) (stats : CategoryStats) : TrustLevel :=
  if 80 ≤ score ∧ stats.contradicted = 0 then TrustLevel.high
  else if 50 ≤ score then TrustLevel.medium
  else if (stats.total : ℚ) * (3/10) < (stats.contradicted : ℚ) then TrustLevel.critical
  else TrustLevel.low

/-- `ScoringLayer._get_flagged_claims`: contradicted claims plus
unverifiable claims with confidence below 0.6, in result order. -/
def get_flagged_claims (results : List VerificationResult) : List String :=
  results.filterMap (fun r =>
    if r.category = ClaimCategory.contradicted then some r.claim_text
    else if r.category = ClaimCategory.unverifiable ∧ r.confidence < 0.6 then
      some r.claim_text
    else none)

/-- `ScoringLayer._generate_recommendations`: the ordered, additive list of
templated messages, with a positive fallback when none triggered. -/
def generate_recommendations (score : ℚ) (stats : CategoryStats)
    (results : List VerificationResult) : List String :=
  let recs : List String :=
    (if 0 < stats.contradicted then
      ["Review " ++ toString stats.contradicted ++
        " contradicted claim(s) and consider corrections."] else []) ++
    (if (stats.total : ℚ) * (3/10) < (stats.unverifiable : ℚ) then
      ["Many claims lack sufficient evidence. Consider adding more source documents."]
     else []) ++
    (if score < 50 then
      ["Low trust score indicates significant issues. Manual review strongly recommended."]
     else []) ++
    (let low_confidence := results.filter (fun r => r.confidence < 0.6)
     if 3 < low_confidence.length then
      [toString low_confidence.length ++
        " claims have low confidence scores. Consider reviewing these."] else [])
  if recs.isEmpty then
    if 80 ≤ score then ["Document passes verification with high confidence."]
    else ["Document passes verification. Minor review suggested."]
  else recs

/-- The average confidence and mean drift penalty: drift-adjusted values
when a (truthy, i.e. non-empty) drift result list is present, else the raw
confidences and drift 0. -/
def confidence_and_drift (results : List VerificationResult)
    (drift_adjusted_results : Option (List DriftAdjustedResult)) : ℚ × ℚ :=
  match drift_adjusted_results with
  | some (d :: ds) =>
    let l := d :: ds
    (((l.map (fun r => r.adjusted_confidence)).sum) / (l.length : ℚ),
     ((l.map (fun r => r.drift_penalty)).sum) / (l.length : ℚ))
  | _ =>
    (((results.map (fun r => r.confidence)).sum) / (results.length : ℚ), 0)

/-- The weighted trust value: `100 × (supported_ratio·w1 + avg_confidence·w2
+ (1−drift)·w3 + (1−severity)·w4)`, clamped to `[0, 100]` (the unrounded
score that `calculate_trust_score` feeds to the level decision). -/
def final_trust_value (w1 w2 w3 w4 sevMul : ℚ) (results : List VerificationResult)
    (drift_adjusted_results : Option (List DriftAdjustedResult))
    (claims : Option (List Claim)) : ℚ :=
  let stats := calculate_category_stats results
  let supported_share : ℚ :=
    if 0 < stats.total then (stats.supported : ℚ) / (stats.total : ℚ) else 0
  let cd := confidence_and_drift results drift_adjusted_results
  let severity := calculate_severity_score sevMul results claims
  let score_components :=
    supported_share * w1 + cd.1 * w2 + (1 - cd.2) * w3 + (1 - severity) * w4
  max 0 (min 100 (score_components * 100))

/-- `ScoringLayer._empty_trust_score`. -/
def empty_trust_score : TrustScore :=
  { score := 0
    level := TrustLevel.low
    breakdown :=
      { supported_share := 0, supported_contribution := 0,
        avg_confidence := 0, confidence_contribution := 0,
        drift_score := 0, drift_contribution := 0,
        severity_score := 0, severity_contribution := 0 }
    category_counts := { supported := 0, contradicted := 0, unverifiable := 0 }
    total_claims := 0
    flagged_claims := []
    recommendations := ["No claims to verify."]
    zone := TrustZone.LOW }

/-- `ScoringLayer.calculate_trust_score`: aggregate the verification
results (optionally drift-adjusted, optionally with the original claims for
severity weighting) into a trust score with level, breakdown, flags and
recommendations.  `w1..w4` are the configured weights and `sevMul` the
domain severity multiplier. -/
def calculate_trust_score (w1 w2 w3 w4 sevMul : ℚ)
    (verification_results : List VerificationResult)
    (drift_adjusted_results : Option (List DriftAdjustedResult))
    (claims : Option (List Claim)) : TrustScore :=
  if verification_results.isEmpty then empty_trust_score
  else
    let stats := calculate_category_stats verification_results
    let supported_share : ℚ :=
      if 0 < stats.total then (stats.supported : ℚ) / (stats.total : ℚ) else 0
    let cd := confidence_and_drift verification_results drift_adjusted_results
    let severity := calculate_severity_score sevMul verification_results claims
    let final_score :=
      final_trust_value w1 w2 w3 w4 sevMul verification_results drift_adjusted_results claims
    { score := pyRound1 final_score
      level := determine_trust_level final_score stats
      breakdown :=
        { supported_share := supported_share
          supported_contribution := supported_share * w1 * 100
          avg_confidence := cd.1
          confidence_contribution := cd.1 * w2 * 100
          drift_score := cd.2
          drift_contribution := (1 - cd.2) * w3 * 100
          severity_score := severity
          severity_contribution := (1 - severity) * w4 * 100 }
      category_counts := stats
      total_claims := stats.total
      flagged_claims := get_flagged_claims verification_results
      recommendations :=
        generate_recommendations final_score stats verification_results
      zone := TrustZone.get_zone final_score }

/-! ### Retrieval operations (src/layers/retrieval.py)

The vector (FAISS) and keyword (BM25) back-ends are external; the hybrid
fusion of their ranked results is modelled over lists of
`(chunk_id, raw score)` pairs, exactly following the combination loops of
`RetrievalLayer.hybrid_search`. -/

/-- Insert into a list sorted descending by score, before the first element
of score not exceeding the inserted one (a stable descending sort step,
matching Python's stable `list.sort(key=score, reverse=True)`). -/
def insertDesc {α : Type} (p : α × ℚ) : List (α × ℚ) → List (α × ℚ)
  | [] => [p]
  | q :: qs => if p.2 < q.2 then q :: insertDesc p qs else p :: q :: qs

/-- Stable descending sort by score. -/
def sortDesc {α : Type} : List (α × ℚ) → List (α × ℚ)
  | [] => []
  | p :: rest => insertDesc p (sortDesc rest)

/-- The vector pass of `hybrid_search`: normalize every vector score by the
maximum vector score (0 when the maximum is not positive) and record a zero
keyword component.  Entries keep the result order (dict insertion order). -/
def vecEntries (vector_results : List (String × ℚ)) : List (String × ℚ × ℚ) :=
  match vector_results with
  | [] => []
  | _ =>
    let max_vec_score := listMax (vector_results.map (fun p => p.2))
    vector_results.map (fun p =>
      (p.1, if 0 < max_vec_score then p.2 / max_vec_score else 0, 0))

/-- One step of the keyword pass: set the keyword component of an existing
entry, or append a fresh entry with zero vector component. -/
def addKw (combined : List (String × ℚ × ℚ)) (id : String) (ks : ℚ) :
    List (String × ℚ × ℚ) :=
  if (combined.lookup id).isSome then
    combined.map (fun e => if e.1 = id then (e.1, e.2.1, ks) else e)
  else
    combined ++ [(id, 0, ks)]

/-- The fused `(chunk_id, combined score)` list of `hybrid_search`, before
sorting: vector pass, keyword pass (normalizing by the maximum keyword
score), then `vector_weight * vector + keyword_weight * keyword` per
entry. -/
def hybridCombine (vw kw : ℚ) (vector_results keyword_results : List (String × ℚ)) :
    List (String × ℚ) :=
  let base := vecEntries vector_results
  let withKw : List (String × ℚ × ℚ) :=
    match keyword_results with
    | [] => base
    | _ =>
      let max_kw_score := listMax (keyword_results.map (fun p => p.2))
      keyword_results.foldl (fun acc p =>
        addKw acc p.1 (if 0 < max_kw_score then p.2 / max_kw_score else 0)) base
  withKw.map (fun e => (e.1, vw * e.2.1 + kw * e.2.2))

/-- The fused combined score `hybrid_search` computes for one chunk (0 for a
chunk that appears in neither result list). -/
def fusedScore (vw kw : ℚ) (vector_results keyword_results : List (String × ℚ))
    (c : String) : ℚ :=
  ((hybridCombine vw kw vector_results keyword_results).lookup c).getD 0

/-- `RetrievalLayer.hybrid_search`: fuse, sort by combined score descending
(stable, as Python's `list.sort`), return the top k. -/
def hybrid_search (vw kw : ℚ) (k : Nat)
    (vector_results keyword_results : List (String × ℚ)) : List (String × ℚ) :=
  (sortDesc (hybridCombine vw kw vector_results keyword_results)).take k

/-- `RetrievalLayer.retrieve_evidence`: run the selected search (the ranked
search back-end is the explicit parameter `search`), drop results below the
similarity threshold, fall back to the single top result when the filter
empties a non-empty result list, and attach the citation of the top kept
chunk. -/
def retrieve_evidence (thr : ℚ) (search : String → List (IndexedChunk × ℚ))
    (claim : Claim) (method : String) : EvidenceResult :=
  let results := search claim.text
  let filtered0 := results.filter (fun p => thr ≤ p.2)
  let filtered := if filtered0.isEmpty then results.take 1 else filtered0
  let chunks := filtered.map (fun p => p.1)
  let scores := filtered.map (fun p => p.2)
  let er : EvidenceResult :=
    { claim_id := claim.claim_id
      claim_text := claim.text
      evidence_chunks := chunks
      scores := scores
      retrieval_method := method
      top_evidence := (chunks.head?).map (fun c => c.content)
      citation := none }
  if chunks.isEmpty then er
  else { er with citation := some er.get_citation_string }

/-- Number of distinct lowercased claim-entity texts occurring as
substrings of the (lowercased) chunk text — the `set`-based entity overlap
count of `rerank_by_entity_match`. -/
def entityMatchCount (claim : Claim) (chunk_text : String) : Nat :=
  ((claim.entities.map (fun e => pyLower e.text)).dedup).countP
    (fun e => pySubstr e (pyLower chunk_text))

/-- `RetrievalLayer.rerank_by_entity_match`: add 0.1 per matching entity to
each chunk's score (capped at 1.0), re-sort descending, and rebuild the
result; the citation is produced by `get_citation_string` of the *input*
result (hence from the pre-rerank top chunk). -/
def rerank_by_entity_match (claim : Claim) (evidence_result : EvidenceResult) :
    EvidenceResult :=
  if claim.entities.isEmpty ∨ evidence_result.evidence_chunks.isEmpty then
    evidence_result
  else
    let reranked0 :=
      (evidence_result.evidence_chunks.zip evidence_result.scores).map (fun p =>
        (p.1, min (p.2 + (entityMatchCount claim p.1.content : ℚ) * (1/10)) 1))
    let reranked := sortDesc reranked0
    { claim_id := evidence_result.claim_id
      claim_text := evidence_result.claim_text
      evidence_chunks := reranked.map (fun p => p.1)
      scores := reranked.map (fun p => p.2)
      retrieval_method := evidence_result.retrieval_method ++ "+entity_rerank"
      top_evidence := (reranked.head?).map (fun p => p.1.content)
      citation :=
        if reranked.isEmpty then none
        else some evidence_result.get_citation_string }

/-! ### Spec-side definitions for the amended claims -/

/-- Trust level assignment as the source orders it, as a closed formula on
the (clamped, unrounded) score, the contradicted count and the total count:
high, then medium, then critical, then low. -/
def trust_level_spec (score : ℚ) (contradicted total : Nat) : TrustLevel :=
  if 80 ≤ score ∧ contradicted = 0 then TrustLevel.high
  else if 50 ≤ score then TrustLevel.medium
  else if (total : ℚ) * (3/10) < (contradicted : ℚ) then TrustLevel.critical
  else TrustLevel.low

/-! ### Concrete instances used by the closed theorems below -/

/-- A neutral NLI triple. -/
def nliNeutral : NLIResult :=
  { category := ClaimCategory.unverifiable, confidence := 0.5,
    confidence_level := ConfidenceLevel.uncertain,
    entailment_score := 0, contradiction_score := 0, neutral_score := 1 }

/-- A verification result with the given id (also used as claim text),
category and confidence. -/
def mkResult (id : String) (cat : ClaimCategory) (conf : ℚ) : VerificationResult :=
  { claim_id := id, claim_text := id, category := cat, confidence := conf,
    confidence_level := ConfidenceLevel.from_score conf, nli_result := nliNeutral,
    entity_matches := [], evidence_used := "", citation := "No citation available",
    explanation := "", entity_consistency_score := 1, numerical_accuracy_score := 1 }

/-- Five verification results: 3 supported, 2 contradicted, confidence 0.8
each (the spec's trust-score scenario). -/
def fiveResults : List VerificationResult :=
  [mkResult ("c1") ClaimCategory.supported 0.8,
   mkResult ("c2") ClaimCategory.supported 0.8,
   mkResult ("c3") ClaimCategory.supported 0.8,
   mkResult ("c4") ClaimCategory.contradicted 0.8,
   mkResult ("c5") ClaimCategory.contradicted 0.8]

/-- A chunk with no mention of the sample claim's entity. -/
def chunkA : IndexedChunk :=
  { chunk_id := "a", content := "nothing relevant", document_name := "DocA",
    page_number := none, line_start := none, line_end := none }

/-- A chunk mentioning the sample claim's entity. -/
def chunkB : IndexedChunk :=
  { chunk_id := "b", content := "paris is the capital", document_name := "DocB",
    page_number := none, line_start := none, line_end := none }

/-- A claim with one entity whose text occurs in `chunkB` only. -/
def parisClaim : Claim :=
  { claim_id := "c", text := "Paris is big",
    entities := [{ text := "Paris", label := "GPE", severity_weight := 1.1 }] }

/-- Evidence for `parisClaim` ranking `chunkA` above `chunkB`. -/
def parisEvidence : EvidenceResult :=
  { claim_id := "c", claim_text := "Paris is big",
    evidence_chunks := [chunkA, chunkB], scores := [0.9, 0.85],
    retrieval_method := "hybrid", top_evidence := some chunkA.content,
    citation := some ("DocA") }

/-- An NLI collaborator reporting a strong contradiction. -/
def nliContra : String → List String → NLIResult := fun _ _ =>
  { category := ClaimCategory.contradicted, confidence := 0.9,
    confidence_level := ConfidenceLevel.certain,
    entailment_score := 0.05, contradiction_score := 0.9, neutral_score := 0.05 }

/-- An NLI collaborator reporting a weak, mostly neutral signal. -/
def nliWeak : String → List String → NLIResult := fun _ _ =>
  { category := ClaimCategory.unverifiable, confidence := 0.6,
    confidence_level := ConfidenceLevel.likely,
    entailment_score := 0.1, contradiction_score := 0.3, neutral_score := 0.6 }

/-- A string-similarity collaborator that matches nothing. -/
def simZero : String → String → ℚ := fun _ _ => 0

/-- A claim whose only numeric literal is 200. -/
def waterClaim : Claim :=
  { claim_id := "x", text := "Water boils at 200 degrees", entities := [] }

/-- Evidence for `waterClaim` whose numeric literals (100) do not include
the claim's. -/
def waterEvidence : EvidenceResult :=
  { claim_id := "x", claim_text := "Water boils at 200 degrees",
    evidence_chunks :=
      [{ chunk_id := "e", content := "Water boils at 100 degrees at sea level",
         document_name := "Doc", page_number := none, line_start := none,
         line_end := none }],
    scores := [0.8], retrieval_method := "hybrid", top_evidence := none,
    citation := some ("Doc") }

/-- An evidence result with no chunks at all. -/
def emptyEvidence : EvidenceResult :=
  { claim_id := "x", claim_text := "Water boils at 200 degrees",
    evidence_chunks := [], scores := [], retrieval_method := "hybrid",
    top_evidence := none, citation := none }

/-- An unstable drift entry for claim text `t` with drift score 0.4. -/
def driftEntryT : ClaimDrift := { claim := "t", drift_score := 2/5, is_stable := false }

/-- A drift report holding only `driftEntryT`. -/
def driftReportT : DriftReport := { claim_drifts := [driftEntryT] }

/-- A verification result whose claim text matches `driftEntryT`. -/
def resultT : VerificationResult := mkResult ("t") ClaimCategory.supported (4/5)

/-- A ranked search back-end returning two results in descending order. -/
def searchTwo : String → List (IndexedChunk × ℚ) := fun _ => [(chunkA, 0.9), (chunkB, 0.2)]

/-! ### Helper lemmas -/

/-- Every claim category is one of the three enumerated values. -/
theorem claimCategory_cases (c : ClaimCategory) :
    c = ClaimCategory.supported ∨ c = ClaimCategory.contradicted ∨
      c = ClaimCategory.unverifiable := by
  cases c <;> simp

/-- The drift penalty is between 0 and 1/2 for a non-negative penalty
factor. -/
theorem calculate_penalty_bounds (vt cp d : ℚ) (hcp : 0 ≤ cp) :
    0 ≤ calculate_penalty vt cp d ∧ calculate_penalty vt cp d ≤ 1/2 := by
  unfold calculate_penalty
  split_ifs with h
  · norm_num
  · constructor
    · apply le_min _ (by norm_num)
      have h2 : 0 ≤ d - vt := by linarith [not_le.mp h]
      positivity
    · exact min_le_right _ _

/-- Stable descending insertion permutes. -/
theorem insertDesc_perm {α : Type} (p : α × ℚ) (l : List (α × ℚ)) :
    (insertDesc p l).Perm (p :: l) := by
  induction l with
  | nil => exact List.Perm.refl _
  | cons q qs ih =>
    rw [insertDesc]
    split_ifs with h
    · exact (ih.cons q).trans (List.Perm.swap p q qs)
    · exact List.Perm.refl _

/-- The stable descending sort permutes its input. -/
theorem sortDesc_perm {α : Type} (l : List (α × ℚ)) : (sortDesc l).Perm l := by
  induction l with
  | nil => exact List.Perm.refl _
  | cons p rest ih =>
    rw [sortDesc]
    exact (insertDesc_perm p (sortDesc rest)).trans (ih.cons p)

/-- Stable descending insertion preserves descending order. -/
theorem insertDesc_sorted {α : Type} (p : α × ℚ) (l : List (α × ℚ))
    (h : l.Pairwise (fun a b => b.2 ≤ a.2)) :
    (insertDesc p l).Pairwise (fun a b => b.2 ≤ a.2) := by
  induction l with
  | nil => simp [insertDesc]
  | cons q qs ih =>
    rw [insertDesc]
    rcases List.pairwise_cons.mp h with ⟨hq, hqs⟩
    split_ifs with hlt
    · refine List.pairwise_cons.mpr ⟨?_, ih hqs⟩
      intro b hb
      rcases List.mem_cons.mp ((insertDesc_perm p qs).mem_iff.mp hb) with rfl | hbqs
      · exact le_of_lt hlt
      · exact hq b hbqs
    · refine List.pairwise_cons.mpr ⟨?_, h⟩
      intro b hb
      rcases List.mem_cons.mp hb with rfl | hbqs
      · exact not_lt.mp hlt
      · exact le_trans (hq b hbqs) (not_lt.mp hlt)

/-- The stable descending sort sorts descending by score. -/
theorem sortDesc_sorted {α : Type} (l : List (α × ℚ)) :
    (sortDesc l).Pairwise (fun a b => b.2 ≤ a.2) := by
  induction l with
  | nil => simp [sortDesc]
  | cons p rest ih =>
    rw [sortDesc]
    exact insertDesc_sorted p _ ih

/-! ### C5 -/

/-- C5: the drift confidence penalty is 0 at or below the variance
threshold, equals `min((d − threshold) · cp · 5, 1/2)` above it, is strictly
increasing in the drift score above the threshold until the 0.5 cap, and a
matched unstable claim's adjusted confidence is the original confidence
times `(1 − penalty)`. -/
theorem drift_penalty_spec (vt cp : ℚ) (hcp : 0 < cp) :
    (∀ d, d ≤ vt → calculate_penalty vt cp d = 0) ∧
    (∀ d, vt < d → calculate_penalty vt cp d = min ((d - vt) * cp * 5) (1/2)) ∧
    (∀ d1 d2, vt < d1 → d1 < d2 → calculate_penalty vt cp d1 < 1/2 →
      calculate_penalty vt cp d1 < calculate_penalty vt cp d2) ∧
    (∀ (emb : String → String → ℚ) (report : Option DriftReport)
      (results : List VerificationResult) (r : VerificationResult) (cd : ClaimDrift),
      r ∈ results →
      find_claim_drift emb r.claim_text report = some cd →
      cd.is_stable = false →
      ∃ dar ∈ adjust_verification_results vt cp emb results report,
        dar.original_result = r ∧
        dar.drift_penalty = calculate_penalty vt cp cd.drift_score ∧
        dar.adjusted_confidence =
          r.confidence * (1 - calculate_penalty vt cp cd.drift_score)) := by
  refine ⟨?_, ?_, ?_, ?_⟩
  · intro d hd
    simp [calculate_penalty, hd]
  · intro d hd
    rw [calculate_penalty, if_neg (not_le.mpr hd)]
  · intro d1 d2 h1 h2 hlt
    have e1 : calculate_penalty vt cp d1 = min ((d1 - vt) * cp * 5) (1/2) := by
      rw [calculate_penalty, if_neg (not_le.mpr h1)]
    have e2 : calculate_penalty vt cp d2 = min ((d2 - vt) * cp * 5) (1/2) := by
      rw [calculate_penalty, if_neg (not_le.mpr (lt_trans h1 h2))]
    have hx : (d1 - vt) * cp * 5 < (d2 - vt) * cp * 5 := by nlinarith
    have hmin : min ((d1 - vt) * cp * 5) ((1 : ℚ)/2) = (d1 - vt) * cp * 5 := by
      rcases min_cases ((d1 - vt) * cp * 5) ((1 : ℚ)/2) with ⟨he, _⟩ | ⟨he, hc⟩
      · exact he
      · rw [e1, he] at hlt
        exact absurd hlt (lt_irrefl _)
    rw [e1, e2, hmin]
    apply lt_min hx
    rw [e1, hmin] at hlt
    exact hlt
  · intro emb report results r cd hr hfind hst
    refine ⟨_, List.mem_map_of_mem _ hr, ?_⟩
    simp [hfind, adjust_one, hst]

/-! ### C10 -/

/-- C10: drift adjustment returns one wrapper per input result in order,
keeps the wrapped original result unchanged, and the adjusted confidence
lies between half the original confidence and the original confidence
(for a non-negative penalty factor and non-negative confidences). -/
theorem adjust_results_frame (vt cp : ℚ) (emb : String → String → ℚ)
    (results : List VerificationResult) (report : Option DriftReport)
    (hcp : 0 ≤ cp) (hconf : ∀ r ∈ results, 0 ≤ r.confidence) :
    (adjust_verification_results vt cp emb results report).length = results.length ∧
    ∀ i (hi : i < results.length)
      (ho : i < (adjust_verification_results vt cp emb results report).length),
      ((adjust_verification_results vt cp emb results report).get ⟨i, ho⟩).original_result
          = results.get ⟨i, hi⟩ ∧
      (results.get ⟨i, hi⟩).confidence * (1/2) ≤
        ((adjust_verification_results vt cp emb results report).get ⟨i, ho⟩).adjusted_confidence ∧
      ((adjust_verification_results vt cp emb results report).get ⟨i, ho⟩).adjusted_confidence ≤
        (results.get ⟨i, hi⟩).confidence := by
  constructor
  · simp [adjust_verification_results]
  · intro i hi ho
    have hc : 0 ≤ (results[i]).confidence := hconf _ (List.getElem_mem hi)
    simp only [List.get_eq_getElem, adjust_verification_results, List.getElem_map]
    cases hfind : find_claim_drift emb (results[i]).claim_text report with
    | none =>
      simp only [adjust_one]
      refine ⟨by trivial, ?_, le_refl _⟩
      linarith
    | some cd =>
      cases hst : cd.is_stable with
      | true =>
        simp only [adjust_one]
        rw [if_neg (by simp [hst])]
        refine ⟨by trivial, ?_, le_refl _⟩
        linarith
      | false =>
        simp only [adjust_one]
        rw [if_pos hst]
        have hpb := calculate_penalty_bounds vt cp cd.drift_score hcp
        refine ⟨by trivial, ?_, ?_⟩
        · apply mul_le_mul_of_nonneg_left _ hc
          linarith [hpb.2]
        · calc (results[i]).confidence * (1 - calculate_penalty vt cp cd.drift_score) ≤
              (results[i]).confidence * 1 := by
                apply mul_le_mul_of_nonneg_left _ hc
                linarith [hpb.1]
          _ = (results[i]).confidence := mul_one _

/-! ### C9 -/

/-- C9: batch verification fails fast with an error on a length mismatch
and otherwise returns one verification result per claim, pairing claims and
evidences in order. -/
theorem verify_claims_batch_spec (nli : String → List String → NLIResult)
    (sim : String → String → ℚ) (thr : ℚ)
    (claims : List Claim) (evidences : List EvidenceResult) :
    (claims.length ≠ evidences.length →
      verify_claims_batch nli sim thr claims evidences =
        Except.error ("Claims and evidences must have same length")) ∧
    (claims.length = evidences.length →
      ∃ l, verify_claims_batch nli sim thr claims evidences = Except.ok l ∧
        l.length = claims.length ∧
        ∀ i (hc : i < claims.length) (he : i < evidences.length) (hl : i < l.length),
          l.get ⟨i, hl⟩ = verify_claim nli sim thr (claims.get ⟨i, hc⟩)
            (evidences.get ⟨i, he⟩)) := by
  constructor
  · intro h
    rw [verify_claims_batch, if_pos h]
  · intro h
    refine ⟨List.zipWith (verify_claim nli sim thr) claims evidences, ?_, ?_, ?_⟩
    · rw [verify_claims_batch, if_neg (by omega)]
    · rw [List.length_zipWith, h, min_self]
    · intro i hc he hl
      simp [List.get_eq_getElem, List.getElem_zipWith]

/-! ### C3 -/

/-- C3 (amended): with an empty combined evidence text, `verify_claim`
returns an unverifiable verdict with confidence exactly 1/2 and explanation
`No evidence found` (capitalized, unlike the claimed lowercase string), and
the result does not depend on the NLI collaborator at all. -/
theorem verify_claim_no_evidence (nli1 nli2 : String → List String → NLIResult)
    (sim : String → String → ℚ) (thr : ℚ) (claim : Claim) (er : EvidenceResult)
    (h : er.get_combined_evidence 3 = "") :
    verify_claim nli1 sim thr claim er = verify_claim nli2 sim thr claim er ∧
    (verify_claim nli1 sim thr claim er).category = ClaimCategory.unverifiable ∧
    (verify_claim nli1 sim thr claim er).confidence = 1/2 ∧
    (verify_claim nli1 sim thr claim er).explanation = "No evidence found" := by
  simp only [verify_claim, if_pos h]
  norm_num [create_unverifiable_result]

section ConcreteEvaluations
/-
Concrete evaluations: the rational operations of Batteries are marked
irreducible for the elaborator, which blocks `decide` on closed goals even
though the kernel reduces them fine; they are made semireducible locally for
this section of closed witnesses and counterexamples.
-/
set_option allowUnsafeReducibility true
attribute [local semireducible] Rat.mul Rat.inv Rat.add Rat.sub Rat.normalize Rat.ofScientific

/-- C3 counterexample: with no evidence chunks, `verify_claim` short-
circuits to an unverifiable verdict with confidence 1/2 whose explanation is
the capitalized string `No evidence found`, not the claimed lowercase
`no evidence found`. -/
theorem verify_claim_no_evidence_ce :
    emptyEvidence.evidence_chunks = [] ∧
    (verify_claim nliContra simZero (9/10) waterClaim emptyEvidence).category =
      ClaimCategory.unverifiable ∧
    (verify_claim nliContra simZero (9/10) waterClaim emptyEvidence).confidence = 1/2 ∧
    (verify_claim nliContra simZero (9/10) waterClaim emptyEvidence).explanation =
      "No evidence found" ∧
    (verify_claim nliContra simZero (9/10) waterClaim emptyEvidence).explanation ≠
      "no evidence found" := by
  decide

/-- C3 witness: the two NLI collaborators `nliContra` and `nliWeak` yield
the identical short-circuited result on `emptyEvidence`. -/
theorem verify_claim_no_evidence_witness :
    verify_claim nliContra simZero (9/10) waterClaim emptyEvidence =
      verify_claim nliWeak simZero (9/10) waterClaim emptyEvidence ∧
    (verify_claim nliContra simZero (9/10) waterClaim emptyEvidence).confidence = 1/2 := by
  have h := verify_claim_no_evidence nliContra nliWeak simZero (9/10) waterClaim
    emptyEvidence (by decide)
  exact ⟨h.1, h.2.2.1⟩

/-- C5 witness: concrete evaluation of every part at threshold 0.2 and
penalty factor 0.1, with the unstable drift entry `driftEntryT` matched by
`resultT`. -/
theorem drift_penalty_spec_witness :
    calculate_penalty (1/5) (1/10) (1/10) = 0 ∧
    calculate_penalty (1/5) (1/10) (2/5) = min ((2/5 - 1/5) * (1/10) * 5) (1/2) ∧
    calculate_penalty (1/5) (1/10) (3/10) < calculate_penalty (1/5) (1/10) (2/5) ∧
    (∃ dar ∈ adjust_verification_results (1/5) (1/10) simZero [resultT] (some driftReportT),
      dar.original_result = resultT ∧
      dar.drift_penalty = calculate_penalty (1/5) (1/10) driftEntryT.drift_score ∧
      dar.adjusted_confidence =
        resultT.confidence * (1 - calculate_penalty (1/5) (1/10) driftEntryT.drift_score)) := by
  have h := drift_penalty_spec (1/5) (1/10) (by norm_num)
  refine ⟨h.1 _ (by norm_num), h.2.1 _ (by norm_num),
    h.2.2.1 (3/10) (2/5) (by norm_num) (by norm_num) ?_, ?_⟩
  · rw [h.2.1 _ (by norm_num)]
    norm_num
  · exact h.2.2.2 simZero (some driftReportT) [resultT] resultT driftEntryT
      (by simp) (by decide) (by decide)

/-- C10 witness: concrete evaluation on `resultT` against the unstable
drift report. -/
theorem adjust_results_frame_witness :
    (adjust_verification_results (1/5) (1/10) simZero [resultT] (some driftReportT)).length = 1 ∧
    ((adjust_verification_results (1/5) (1/10) simZero [resultT]
        (some driftReportT)).get ⟨0, by decide⟩).original_result = resultT ∧
    resultT.confidence * (1/2) ≤
      ((adjust_verification_results (1/5) (1/10) simZero [resultT]
        (some driftReportT)).get ⟨0, by decide⟩).adjusted_confidence ∧
    ((adjust_verification_results (1/5) (1/10) simZero [resultT]
        (some driftReportT)).get ⟨0, by decide⟩).adjusted_confidence ≤ resultT.confidence := by
  have h := adjust_results_frame (1/5) (1/10) simZero [resultT] (some driftReportT)
    (by norm_num) (by intro r hr; simp at hr; subst hr; decide)
  have h2 := h.2 0 (by decide) (by decide)
  exact ⟨h.1, h2.1, h2.2.1, h2.2.2⟩

/-- C9 witness: the error on mismatched lengths and the in-order pairing on
a one-element batch. -/
theorem verify_claims_batch_spec_witness :
    verify_claims_batch nliContra simZero (9/10) [waterClaim] [] =
      Except.error ("Claims and evidences must have same length") ∧
    (∃ l, verify_claims_batch nliContra simZero (9/10) [waterClaim] [waterEvidence] =
        Except.ok l ∧ l.length = 1) := by
  have h1 := (verify_claims_batch_spec nliContra simZero (9/10) [waterClaim] []).1 (by decide)
  have h2 := (verify_claims_batch_spec nliContra simZero (9/10) [waterClaim] [waterEvidence]).2 rfl
  obtain ⟨l, hok, hlen, _⟩ := h2
  exact ⟨h1, ⟨l, hok, hlen⟩⟩

end ConcreteEvaluations

/-! ### C2 -/

/-- C2 (amended): with non-empty combined evidence and numeric consistency
score below 0.5, `verify_claim` always returns category contradicted; the
confidence is the fixed 0.7 only when no earlier contradiction rule fires —
when the NLI contradiction score exceeds 0.7, or an entity contradiction
with entity score below 0.7 exists, the confidence comes from those rules
instead. -/
theorem verify_claim_numeric_mismatch (nli : String → List String → NLIResult)
    (sim : String → String → ℚ) (thr : ℚ) (claim : Claim) (er : EvidenceResult)
    (hev : ¬(er.get_combined_evidence 3 = ""))
    (hnum : check_numerical_consistency claim.text (er.get_combined_evidence 3) < 1/2) :
    (verify_claim nli sim thr claim er).category = ClaimCategory.contradicted ∧
    ((nli claim.text ((er.evidence_chunks.take 3).map (fun c => c.content))).contradiction_score
        ≤ 7/10 →
      ¬((check_entity_consistency sim thr claim (er.get_combined_evidence 3)).any
          (fun m => m.is_contradiction) = true ∧
        calculate_entity_score
          (check_entity_consistency sim thr claim (er.get_combined_evidence 3)) < 7/10) →
      (verify_claim nli sim thr claim er).confidence = 7/10) := by
  simp only [verify_claim]
  rw [if_neg hev]
  simp only [fuse_signals]
  split_ifs with h1 h2 h3 h4 h5
  · exact absurd h1.2.2.1 (by linarith)
  · refine ⟨rfl, ?_⟩
    intro hc _
    exact absurd (lt_of_lt_of_le h2 hc) (by norm_num)
  · refine ⟨rfl, ?_⟩
    intro _ hne
    exact absurd ⟨h3.1, by linarith [h3.2]⟩ hne
  · refine ⟨rfl, ?_⟩
    intro _ _
    norm_num
  · exact absurd (by linarith : check_numerical_consistency claim.text
      (er.get_combined_evidence 3) < 0.5) h4
  · exact absurd (by linarith : check_numerical_consistency claim.text
      (er.get_combined_evidence 3) < 0.5) h4

/-! ### C8 -/

/-- A fold preserves any invariant its step preserves. -/
theorem foldl_preserve {α β : Type} (f : β → α → β) (P : β → Prop)
    (hstep : ∀ b a, P b → P (f b a)) :
    ∀ (l : List α) (b : β), P b → P (l.foldl f b) := by
  intro l
  induction l with
  | nil => intro b hb; exact hb
  | cons a as ih => intro b hb; exact ih _ (hstep b a hb)

/-- The best fuzzy-match score lies in `[0, 1]` when the similarity
collaborator maps into `[0, 1]`. -/
theorem find_similar_entity_bounds (sim : String → String → ℚ)
    (hsim : ∀ a b, 0 ≤ sim a b ∧ sim a b ≤ 1) (entity text : String) :
    0 ≤ (find_similar_entity sim entity text).2 ∧
      (find_similar_entity sim entity text).2 ≤ 1 := by
  rw [find_similar_entity]
  refine foldl_preserve (bestStep sim entity)
    (fun b => 0 ≤ b.2 ∧ b.2 ≤ 1) ?_ _ _ (by norm_num)
  intro b a hb
  simp only [bestStep]
  split_ifs with h
  · exact hsim _ _
  · exact hb

/-- Every entity match records a similarity in `[0, 1]` and an entity of the
claim. -/
theorem check_entity_consistency_bounds (sim : String → String → ℚ)
    (hsim : ∀ a b, 0 ≤ sim a b ∧ sim a b ≤ 1) (thr : ℚ) (claim : Claim)
    (evidence : String) :
    ∀ m ∈ check_entity_consistency sim thr claim evidence,
      (0 ≤ m.similarity ∧ m.similarity ≤ 1) ∧ m.claim_entity ∈ claim.entities := by
  intro m hm
  unfold check_entity_consistency at hm
  rcases List.mem_map.mp hm with ⟨e, he, hme⟩
  subst hme
  dsimp only
  split_ifs with h1 h2 h3
  · exact ⟨⟨by norm_num, by norm_num⟩, he⟩
  · exact ⟨find_similar_entity_bounds sim hsim e.text evidence, he⟩
  · exact ⟨find_similar_entity_bounds sim hsim e.text evidence, he⟩
  · exact ⟨⟨le_refl 0, by norm_num⟩, he⟩

/-- The matched, similarity-weighted severity sum is non-negative and at
most the total severity sum. -/
theorem entity_score_sum_bounds (ms : List EntityMatch)
    (h : ∀ m ∈ ms, (0 ≤ m.similarity ∧ m.similarity ≤ 1) ∧
      0 ≤ m.claim_entity.severity_weight) :
    0 ≤ ((ms.filter (fun m => m.is_match)).map
          (fun m => m.similarity * m.claim_entity.severity_weight)).sum ∧
    ((ms.filter (fun m => m.is_match)).map
        (fun m => m.similarity * m.claim_entity.severity_weight)).sum ≤
      (ms.map (fun m => m.claim_entity.severity_weight)).sum := by
  induction ms with
  | nil => simp
  | cons m ms ih =>
    have hm := h m (List.mem_cons_self m ms)
    have hms := ih (fun x hx => h x (List.mem_cons_of_mem _ hx))
    by_cases hmatch : m.is_match = true
    · simp only [List.filter_cons, hmatch, if_pos, List.map_cons, List.sum_cons]
      constructor
      · have hprod : 0 ≤ m.similarity * m.claim_entity.severity_weight :=
          mul_nonneg hm.1.1 hm.2
        linarith [hms.1]
      · have hle : m.similarity * m.claim_entity.severity_weight ≤
            m.claim_entity.severity_weight := by
          nlinarith [hm.1.2, hm.2]
        linarith [hms.2]
    · simp only [List.filter_cons, hmatch, List.map_cons, List.sum_cons, if_neg,
        Bool.false_eq_true, if_false]
      exact ⟨hms.1, by linarith [hms.2, hm.2]⟩

/-- The entity consistency score lies in `[0, 1]` for matches with
similarities in `[0, 1]` and non-negative severity weights. -/
theorem calculate_entity_score_bounds (ms : List EntityMatch)
    (h : ∀ m ∈ ms, (0 ≤ m.similarity ∧ m.similarity ≤ 1) ∧
      0 ≤ m.claim_entity.severity_weight) :
    0 ≤ calculate_entity_score ms ∧ calculate_entity_score ms ≤ 1 := by
  simp only [calculate_entity_score]
  split_ifs with h0 hpos
  · norm_num
  · have hb := entity_score_sum_bounds ms h
    constructor
    · exact div_nonneg hb.1 (le_of_lt hpos)
    · rw [div_le_one hpos]
      exact hb.2
  · norm_num

/-- The numeric consistency score lies in `[0, 1]`. -/
theorem check_numerical_bounds (c e : String) :
    0 ≤ check_numerical_consistency c e ∧ check_numerical_consistency c e ≤ 1 := by
  simp only [check_numerical_consistency]
  split_ifs with h
  · norm_num
  · constructor
    · positivity
    · apply div_le_one_of_le₀
      · exact_mod_cast List.countP_le_length _
      · positivity

/-- The fused confidence lies in `[0, 1]` whenever the NLI triple and the
entity score do. -/
theorem fuse_signals_confidence_bounds (nr : NLIResult) (es ns : ℚ)
    (ems : List EntityMatch)
    (he : 0 ≤ nr.entailment_score ∧ nr.entailment_score ≤ 1)
    (hcn : 0 ≤ nr.contradiction_score ∧ nr.contradiction_score ≤ 1)
    (hne : 0 ≤ nr.neutral_score ∧ nr.neutral_score ≤ 1)
    (hes : 0 ≤ es ∧ es ≤ 1) :
    0 ≤ (fuse_signals nr es ns ems).2 ∧ (fuse_signals nr es ns ems).2 ≤ 1 := by
  simp only [fuse_signals]
  split_ifs with h1 h2 h3 h4 h5
  · exact ⟨le_min he.1 hes.1, le_trans (min_le_left _ _) he.2⟩
  · exact hcn
  · constructor
    · exact le_trans hcn.1 (le_max_left _ _)
    · apply max_le hcn.2
      linarith [hes.1]
  · norm_num
  · exact ⟨mul_nonneg he.1 hes.1, mul_le_one₀ he.2 hes.1 hes.2⟩
  · exact ⟨le_trans hne.1 (le_max_left _ _), max_le hne.2 (by norm_num)⟩

/-- C8: every verification result has one of the three enumerated
categories, and its confidence lies in `[0, 1]` provided the NLI scores do
(with the string-similarity collaborator mapping into `[0, 1]`, as
difflib's ratio does, and non-negative entity severity weights, as the
severity table assigns). -/
theorem verify_claim_invariants (nli : String → List String → NLIResult)
    (sim : String → String → ℚ) (thr : ℚ) (claim : Claim) (er : EvidenceResult)
    (hsim : ∀ a b, 0 ≤ sim a b ∧ sim a b ≤ 1)
    (hw : ∀ e ∈ claim.entities, 0 ≤ e.severity_weight)
    (hnli :
      (0 ≤ (nli claim.text ((er.evidence_chunks.take 3).map
          (fun c => c.content))).entailment_score ∧
        (nli claim.text ((er.evidence_chunks.take 3).map
          (fun c => c.content))).entailment_score ≤ 1) ∧
      (0 ≤ (nli claim.text ((er.evidence_chunks.take 3).map
          (fun c => c.content))).contradiction_score ∧
        (nli claim.text ((er.evidence_chunks.take 3).map
          (fun c => c.content))).contradiction_score ≤ 1) ∧
      (0 ≤ (nli claim.text ((er.evidence_chunks.take 3).map
          (fun c => c.content))).neutral_score ∧
        (nli claim.text ((er.evidence_chunks.take 3).map
          (fun c => c.content))).neutral_score ≤ 1)) :
    ((verify_claim nli sim thr claim er).category = ClaimCategory.supported ∨
      (verify_claim nli sim thr claim er).category = ClaimCategory.contradicted ∨
      (verify_claim nli sim thr claim er).category = ClaimCategory.unverifiable) ∧
    0 ≤ (verify_claim nli sim thr claim er).confidence ∧
    (verify_claim nli sim thr claim er).confidence ≤ 1 := by
  refine ⟨claimCategory_cases _, ?_⟩
  simp only [verify_claim]
  split_ifs with h
  · constructor <;> norm_num [create_unverifiable_result]
  · have hems := check_entity_consistency_bounds sim hsim thr claim
      (er.get_combined_evidence 3)
    have hesb := calculate_entity_score_bounds
      (check_entity_consistency sim thr claim (er.get_combined_evidence 3))
      (fun m hm => ⟨(hems m hm).1, hw _ (hems m hm).2⟩)
    exact fuse_signals_confidence_bounds _ _ _ _ hnli.1 hnli.2.1 hnli.2.2 hesb

section ConcreteEvaluationsB
set_option allowUnsafeReducibility true
attribute [local semireducible] Rat.mul Rat.inv Rat.add Rat.sub Rat.normalize Rat.ofScientific

/-- C2 counterexample: `waterClaim` against `waterEvidence` has numeric
score 0 (below 0.5) and non-empty evidence, yet with an NLI contradiction
score of 0.9 the returned confidence is 0.9, not the claimed fixed 0.7 —
the output is not independent of the NLI classifier. -/
theorem verify_claim_numeric_mismatch_ce :
    check_numerical_consistency waterClaim.text (waterEvidence.get_combined_evidence 3)
        < 1/2 ∧
    waterEvidence.evidence_chunks ≠ [] ∧
    (verify_claim nliContra simZero (9/10) waterClaim waterEvidence).category =
      ClaimCategory.contradicted ∧
    (verify_claim nliContra simZero (9/10) waterClaim waterEvidence).confidence = 9/10 ∧
    (verify_claim nliContra simZero (9/10) waterClaim waterEvidence).confidence ≠ 7/10 := by
  decide

/-- C2 witness: with a weak NLI signal (contradiction 0.3) the same
numeric mismatch yields category contradicted with the fixed confidence
0.7. -/
theorem verify_claim_numeric_mismatch_witness :
    (verify_claim nliWeak simZero (9/10) waterClaim waterEvidence).category =
      ClaimCategory.contradicted ∧
    (verify_claim nliWeak simZero (9/10) waterClaim waterEvidence).confidence = 7/10 := by
  have h := verify_claim_numeric_mismatch nliWeak simZero (9/10) waterClaim waterEvidence
    (by decide) (by decide)
  exact ⟨h.1, h.2 (by decide) (by decide)⟩

/-- C8 witness: concrete category and confidence bounds via the invariant
theorem. -/
theorem verify_claim_invariants_witness :
    ((verify_claim nliContra simZero (9/10) waterClaim waterEvidence).category =
        ClaimCategory.supported ∨
      (verify_claim nliContra simZero (9/10) waterClaim waterEvidence).category =
        ClaimCategory.contradicted ∨
      (verify_claim nliContra simZero (9/10) waterClaim waterEvidence).category =
        ClaimCategory.unverifiable) ∧
    0 ≤ (verify_claim nliContra simZero (9/10) waterClaim waterEvidence).confidence ∧
    (verify_claim nliContra simZero (9/10) waterClaim waterEvidence).confidence ≤ 1 := by
  exact verify_claim_invariants nliContra simZero (9/10) waterClaim waterEvidence
    (fun a b => by norm_num [simZero])
    (by intro e he; simp [waterClaim] at he)
    (by norm_num [nliContra])

end ConcreteEvaluationsB

/-! ### C7 -/

/-- The chunk list of `retrieve_evidence`: threshold filter with forced
top-1 fallback, independent of the citation attachment. -/
theorem retrieve_evidence_chunks (thr : ℚ) (search : String → List (IndexedChunk × ℚ))
    (claim : Claim) (method : String) :
    (retrieve_evidence thr search claim method).evidence_chunks =
      (if ((search claim.text).filter (fun p => thr ≤ p.2)).isEmpty = true
        then (search claim.text).take 1
        else (search claim.text).filter (fun p => thr ≤ p.2)).map (fun p => p.1) := by
  simp only [retrieve_evidence]
  split_ifs <;> rfl

/-- The score list of `retrieve_evidence`. -/
theorem retrieve_evidence_scores (thr : ℚ) (search : String → List (IndexedChunk × ℚ))
    (claim : Claim) (method : String) :
    (retrieve_evidence thr search claim method).scores =
      (if ((search claim.text).filter (fun p => thr ≤ p.2)).isEmpty = true
        then (search claim.text).take 1
        else (search claim.text).filter (fun p => thr ≤ p.2)).map (fun p => p.2) := by
  simp only [retrieve_evidence]
  split_ifs <;> rfl

/-- C7: `retrieve_evidence` keeps exactly the ranked results meeting the
similarity threshold; when results exist but none meets it, it returns
exactly the single highest-scoring chunk; when the search returns nothing,
it returns an empty chunk list (and, being a total function, raises no
error). -/
theorem retrieve_evidence_spec (thr : ℚ) (search : String → List (IndexedChunk × ℚ))
    (claim : Claim) (method : String)
    (hsorted : (search claim.text).Pairwise (fun a b => b.2 ≤ a.2)) :
    ((∃ p ∈ search claim.text, thr ≤ p.2) →
      (retrieve_evidence thr search claim method).evidence_chunks =
        ((search claim.text).filter (fun p => thr ≤ p.2)).map (fun p => p.1) ∧
      (retrieve_evidence thr search claim method).scores =
        ((search claim.text).filter (fun p => thr ≤ p.2)).map (fun p => p.2)) ∧
    (∀ x xs, search claim.text = x :: xs →
      (∀ p ∈ x :: xs, p.2 < thr) →
      (retrieve_evidence thr search claim method).evidence_chunks = [x.1] ∧
      (retrieve_evidence thr search claim method).scores = [x.2] ∧
      ∀ p ∈ x :: xs, p.2 ≤ x.2) ∧
    (search claim.text = [] →
      (retrieve_evidence thr search claim method).evidence_chunks = [] ∧
      (retrieve_evidence thr search claim method).scores = []) := by
  refine ⟨?_, ?_, ?_⟩
  · rintro ⟨p, hp, hpt⟩
    have hne : ((search claim.text).filter (fun p => thr ≤ p.2)) ≠ [] := by
      intro hemp
      rw [List.filter_eq_nil_iff] at hemp
      exact hemp p hp (by simpa using hpt)
    have hcond : ¬(((search claim.text).filter (fun p => thr ≤ p.2)).isEmpty = true) := by
      simpa [List.isEmpty_iff] using hne
    rw [retrieve_evidence_chunks, retrieve_evidence_scores, if_neg hcond]
    exact ⟨rfl, rfl⟩
  · intro x xs hx hbelow
    have hemp : ((search claim.text).filter (fun p => thr ≤ p.2)) = [] := by
      rw [List.filter_eq_nil_iff]
      intro p hp
      rw [hx] at hp
      simpa using not_le.mpr (hbelow p hp)
    have hcond : (((search claim.text).filter (fun p => thr ≤ p.2)).isEmpty = true) := by
      simp [List.isEmpty_iff, hemp]
    rw [retrieve_evidence_chunks, retrieve_evidence_scores, if_pos hcond, hx]
    refine ⟨rfl, rfl, ?_⟩
    rw [hx] at hsorted
    rcases List.pairwise_cons.mp hsorted with ⟨hall, _⟩
    intro p hp
    rcases List.mem_cons.mp hp with h | h
    · rw [h]
    · exact hall p h
  · intro hnil
    rw [retrieve_evidence_chunks, retrieve_evidence_scores, hnil]
    constructor <;> simp

/-! ### C4 -/

/-- Zipping the two projections of a pair list reassembles it. -/
theorem zip_map_proj {α β : Type} (l : List (α × β)) :
    (l.map (fun p => p.1)).zip (l.map (fun p => p.2)) = l := by
  induction l with
  | nil => rfl
  | cons p ps ih => simp only [List.map_cons, List.zip_cons_cons, ih]

/-- C4 (amended): for a claim with entities and a non-empty evidence
result, the reranked chunk/score pairs are a permutation of the input pairs
rescored by `min(score + 0.1 · #{distinct lowercased entity texts occurring
in the chunk}, 1)`, sorted descending by the new score; the returned
citation is built from the *input* (pre-rerank) result's top chunk, not the
post-rerank top chunk. -/
theorem rerank_by_entity_match_spec (claim : Claim) (er : EvidenceResult)
    (h1 : claim.entities ≠ []) (h2 : er.evidence_chunks ≠ [])
    (h3 : er.scores.length = er.evidence_chunks.length) :
    ((rerank_by_entity_match claim er).evidence_chunks.zip
        (rerank_by_entity_match claim er).scores).Perm
      ((er.evidence_chunks.zip er.scores).map (fun p =>
        (p.1, min (p.2 + (entityMatchCount claim p.1.content : ℚ) * (1/10)) 1))) ∧
    (rerank_by_entity_match claim er).scores.Pairwise (fun a b => b ≤ a) ∧
    (rerank_by_entity_match claim er).citation = some er.get_citation_string ∧
    (rerank_by_entity_match claim er).retrieval_method =
      er.retrieval_method ++ "+entity_rerank" := by
  have hcond : ¬(claim.entities.isEmpty = true ∨ er.evidence_chunks.isEmpty = true) := by
    simp [List.isEmpty_iff, h1, h2]
  have hrr : (er.evidence_chunks.zip er.scores).map (fun p =>
      (p.1, min (p.2 + (entityMatchCount claim p.1.content : ℚ) * (1/10)) 1)) ≠ [] := by
    cases hchunks : er.evidence_chunks with
    | nil => exact absurd hchunks h2
    | cons c cs =>
      cases hscores : er.scores with
      | nil =>
        rw [hchunks, hscores] at h3
        simp at h3
      | cons s ss => simp [hchunks, hscores]
  have hsne : sortDesc ((er.evidence_chunks.zip er.scores).map (fun p =>
      (p.1, min (p.2 + (entityMatchCount claim p.1.content : ℚ) * (1/10)) 1))) ≠ [] := by
    intro hx
    apply hrr
    have hlen := (sortDesc_perm ((er.evidence_chunks.zip er.scores).map (fun p =>
      (p.1, min (p.2 + (entityMatchCount claim p.1.content : ℚ) * (1/10)) 1)))).length_eq
    rw [hx] at hlen
    exact List.length_eq_zero.mp hlen.symm
  have hsne2 : ¬((sortDesc ((er.evidence_chunks.zip er.scores).map (fun p =>
      (p.1, min (p.2 + (entityMatchCount claim p.1.content : ℚ) * (1/10)) 1)))).isEmpty
        = true) := by
    simpa [List.isEmpty_iff] using hsne
  simp only [rerank_by_entity_match]
  rw [if_neg hcond]
  refine ⟨?_, ?_, ?_, rfl⟩
  · rw [zip_map_proj]
    exact sortDesc_perm _
  · exact List.pairwise_map.mpr (sortDesc_sorted _)
  · show (if _ = true then none else some er.get_citation_string) = _
    rw [if_neg hsne2]

/-! ### C6 -/

/-- Folding `max` commutes with a pending `max`. -/
theorem foldl_max_comm (l : List ℚ) (a : ℚ) :
    ∀ b, List.foldl max (max a b) l = max a (List.foldl max b l) := by
  induction l with
  | nil => intro b; rfl
  | cons x xs ih =>
    intro b
    simp only [List.foldl_cons, max_assoc]
    exact ih (max b x)

/-- `listMax` of a cons with a non-empty tail. -/
theorem listMax_cons (v x : ℚ) (xs : List ℚ) :
    listMax (v :: x :: xs) = max v (listMax (x :: xs)) := by
  show List.foldl max (max v x) xs = max v (List.foldl max x xs)
  exact foldl_max_comm xs v x

/-- The max-normalized score `u / max(u, M)` (0 when the maximum is not
positive) is monotone in the raw score `u` over the non-negatives. -/
theorem norm_div_mono (M v w : ℚ) (hv : 0 ≤ v) (hvw : v ≤ w) :
    (if 0 < max v M then v / max v M else 0) ≤
      (if 0 < max w M then w / max w M else 0) := by
  by_cases h1 : 0 < max w M
  · rw [if_pos h1]
    by_cases h2 : 0 < max v M
    · rw [if_pos h2]
      rw [div_le_div_iff₀ h2 h1]
      rcases le_total w M with h3 | h3
      · rw [max_eq_right h3, max_eq_right (le_trans hvw h3)]
        have hM : 0 < M := by rwa [max_eq_right (le_trans hvw h3)] at h2
        exact mul_le_mul_of_nonneg_right hvw (le_of_lt hM)
      · rw [max_eq_left h3]
        have hw : 0 ≤ w := le_trans hv hvw
        calc v * w ≤ max v M * w := mul_le_mul_of_nonneg_right (le_max_left v M) hw
          _ = w * max v M := mul_comm _ _
    · rw [if_neg h2]
      exact div_nonneg (le_trans hv hvw) (le_of_lt h1)
  · have h2 : ¬(0 < max v M) := by
      intro h
      exact h1 (lt_of_lt_of_le h (max_le_max hvw (le_refl M)))
    rw [if_neg h1, if_neg h2]

/-- Looking up in a value-mapped association list. -/
theorem lookup_map_value (g : ℚ × ℚ → ℚ) (l : List (String × ℚ × ℚ)) (c : String) :
    ((l.map (fun e => (e.1, g e.2))).lookup c) = (l.lookup c).map g := by
  induction l with
  | nil => rfl
  | cons e es ih =>
    simp only [List.map_cons, List.lookup]
    cases h : (c == e.1) <;> simp [ih]

/-- One keyword-pass step on a list headed by the tracked chunk `c`: the
head keeps its key and vector component; its keyword component is replaced
exactly when the step's chunk is `c`. -/
theorem addKw_head (c : String) (vs ks0 : ℚ) (tail : List (String × ℚ × ℚ))
    (id : String) (ks : ℚ) :
    ∃ tail2, addKw ((c, vs, ks0) :: tail) id ks =
      (c, vs, if id = c then ks else ks0) :: tail2 := by
  unfold addKw
  by_cases hid : id = c
  · subst hid
    rw [if_pos (by simp [List.lookup])]
    refine ⟨tail.map (fun e => if e.1 = id then (e.1, e.2.1, ks) else e), ?_⟩
    simp
  · by_cases hmem : (((c, vs, ks0) :: tail).lookup id).isSome = true
    · rw [if_pos hmem]
      refine ⟨tail.map (fun e => if e.1 = id then (e.1, e.2.1, ks) else e), ?_⟩
      have hcid : ¬(c = id) := fun h => hid h.symm
      simp [hid, hcid]
    · rw [if_neg hmem]
      exact ⟨tail ++ [(id, 0, ks)], by simp [hid]⟩

/-- The keyword pass on a list headed by the tracked chunk `c`: the head
keeps its vector component, and its final keyword component is the folded
normalized score of the keyword occurrences of `c` (independent of the
vector data). -/
theorem fold_addKw_head (mk : ℚ) (c : String) (vs : ℚ) :
    ∀ (kres : List (String × ℚ)) (ks0 : ℚ) (tail : List (String × ℚ × ℚ)),
    ∃ tail2,
      kres.foldl (fun acc p => addKw acc p.1 (if 0 < mk then p.2 / mk else 0))
          ((c, vs, ks0) :: tail) =
        (c, vs,
          kres.foldl (fun a p => if p.1 = c then (if 0 < mk then p.2 / mk else 0) else a)
            ks0) :: tail2 := by
  intro kres
  induction kres with
  | nil => intro ks0 tail; exact ⟨tail, rfl⟩
  | cons p ps ih =>
    intro ks0 tail
    simp only [List.foldl_cons]
    obtain ⟨tail2, heq⟩ := addKw_head c vs ks0 tail p.1 (if 0 < mk then p.2 / mk else 0)
    rw [heq]
    exact ih _ tail2

/-- The fused combined score of the tracked chunk at the head of the vector
results: its normalized vector score weighted by `vw`, plus `kw` times a
keyword component that does not depend on the chunk's raw vector score. -/
theorem fusedScore_head_shape (vw kw : ℚ) (rest kres : List (String × ℚ)) (c : String) :
    ∃ K : ℚ, ∀ u : ℚ, fusedScore vw kw ((c, u) :: rest) kres c =
      vw * (if 0 < listMax (u :: rest.map (fun p => p.2))
            then u / listMax (u :: rest.map (fun p => p.2)) else 0) + kw * K := by
  cases kres with
  | nil =>
    refine ⟨0, fun u => ?_⟩
    simp only [fusedScore, hybridCombine, vecEntries, List.map_cons]
    simp [List.lookup, beq_self_eq_true]
  | cons q qs =>
    refine ⟨(q :: qs).foldl (fun a p => if p.1 = c then
        (if 0 < listMax ((q :: qs).map (fun p => p.2))
         then p.2 / listMax ((q :: qs).map (fun p => p.2)) else 0) else a) 0, fun u => ?_⟩
    simp only [fusedScore, hybridCombine, vecEntries, List.map_cons]
    obtain ⟨tail2, heq⟩ := fold_addKw_head (listMax (q.2 :: qs.map (fun p => p.2))) c
      (if 0 < listMax (u :: rest.map (fun p => p.2))
       then u / listMax (u :: rest.map (fun p => p.2)) else 0) (q :: qs) 0
      (rest.map (fun p =>
        (p.1, if 0 < listMax (u :: rest.map (fun p => p.2))
              then p.2 / listMax (u :: rest.map (fun p => p.2)) else 0, 0)))
    rw [heq]
    rw [lookup_map_value (fun x => vw * x.1 + kw * x.2)]
    simp [List.lookup, beq_self_eq_true]

/-- C6: hybrid fusion is monotone in the vector signal — for a fixed
candidate set with non-negative raw scores and a non-negative vector
weight, increasing one chunk's raw vector score (all other vector scores
and all keyword scores fixed) never decreases that chunk's fused combined
score. -/
theorem hybrid_fusion_monotone (vw kw v w : ℚ) (c : String)
    (rest kres : List (String × ℚ))
    (hvw : 0 ≤ vw) (hv : 0 ≤ v) (hmono : v ≤ w)
    (hrest : ∀ p ∈ rest, 0 ≤ p.2) (hkres : ∀ p ∈ kres, 0 ≤ p.2)
    (hnodup : ¬(c ∈ rest.map (fun p => p.1))) :
    fusedScore vw kw ((c, v) :: rest) kres c ≤ fusedScore vw kw ((c, w) :: rest) kres c := by
  obtain ⟨K, hK⟩ := fusedScore_head_shape vw kw rest kres c
  rw [hK v, hK w]
  apply add_le_add_right
  apply mul_le_mul_of_nonneg_left _ hvw
  cases hl : rest.map (fun p => p.2) with
  | nil =>
    have h1 : listMax (v :: ([] : List ℚ)) = max v 0 := by
      simp [listMax, max_eq_left hv]
    have h2 : listMax (w :: ([] : List ℚ)) = max w 0 := by
      simp [listMax, max_eq_left (le_trans hv hmono)]
    rw [h1, h2]
    exact norm_div_mono 0 v w hv hmono
  | cons x xs =>
    rw [listMax_cons v x xs, listMax_cons w x xs]
    exact norm_div_mono (listMax (x :: xs)) v w hv hmono

/-! ### C1 -/

/-- C1 (amended): the trust level of a non-empty result set follows the
source order high → medium → critical → low on the clamped weighted score:
medium (score ≥ 50) takes priority over critical, so a result set with more
than 30% contradicted claims and score at least 50 that is not high is
assigned medium, not critical. -/
theorem trust_level_priority (w1 w2 w3 w4 sevMul : ℚ)
    (results : List VerificationResult)
    (drift_adjusted_results : Option (List DriftAdjustedResult))
    (claims : Option (List Claim)) (h : results ≠ []) :
    (calculate_trust_score w1 w2 w3 w4 sevMul results drift_adjusted_results claims).level =
      trust_level_spec
        (final_trust_value w1 w2 w3 w4 sevMul results drift_adjusted_results claims)
        (calculate_category_stats results).contradicted
        (calculate_category_stats results).total ∧
    (50 ≤ final_trust_value w1 w2 w3 w4 sevMul results drift_adjusted_results claims →
      ((calculate_category_stats results).total : ℚ) * (3/10) <
        ((calculate_category_stats results).contradicted : ℚ) →
      (calculate_trust_score w1 w2 w3 w4 sevMul results drift_adjusted_results claims).level =
        TrustLevel.medium) := by
  have hne : ¬(results.isEmpty = true) := by simpa [List.isEmpty_iff] using h
  constructor
  · simp only [calculate_trust_score]
    rw [if_neg hne]
    rfl
  · intro h50 hcontr
    have hc0 : (calculate_category_stats results).contradicted ≠ 0 := by
      intro h0
      rw [h0] at hcontr
      have hnn : (0 : ℚ) ≤ ((calculate_category_stats results).total : ℚ) * (3/10) := by
        positivity
      simp only [Nat.cast_zero] at hcontr
      linarith
    simp only [calculate_trust_score]
    rw [if_neg hne]
    show determine_trust_level _ _ = _
    rw [determine_trust_level]
    rw [if_neg (by rintro ⟨_, hcc⟩; exact hc0 hcc), if_pos h50]

section ConcreteEvaluationsC
set_option allowUnsafeReducibility true
attribute [local semireducible] Rat.mul Rat.inv Rat.add Rat.sub Rat.normalize Rat.ofScientific

/-- C1 counterexample: five results (3 supported, 2 contradicted, all
confidence 0.8) with default weights score 74 and have 40% > 30%
contradicted claims, yet the assigned level is medium, not critical —
the medium check runs before the critical check. -/
theorem trust_level_priority_ce :
    (calculate_trust_score (2/5) (3/10) (1/5) (1/10) 1 fiveResults none none).level =
      TrustLevel.medium ∧
    ¬((calculate_trust_score (2/5) (3/10) (1/5) (1/10) 1 fiveResults none none).level =
      TrustLevel.critical) ∧
    (calculate_category_stats fiveResults).contradicted = 2 ∧
    (calculate_category_stats fiveResults).total = 5 ∧
    ((calculate_category_stats fiveResults).total : ℚ) * (3/10) <
      ((calculate_category_stats fiveResults).contradicted : ℚ) ∧
    50 ≤ final_trust_value (2/5) (3/10) (1/5) (1/10) 1 fiveResults none none ∧
    ¬(80 ≤ final_trust_value (2/5) (3/10) (1/5) (1/10) 1 fiveResults none none ∧
      (calculate_category_stats fiveResults).contradicted = 0) ∧
    final_trust_value (2/5) (3/10) (1/5) (1/10) 1 fiveResults none none = 74 := by
  decide

/-- C1 witness: the amended priority applied to the five-result scenario. -/
theorem trust_level_priority_witness :
    (calculate_trust_score (2/5) (3/10) (1/5) (1/10) 1 fiveResults none none).level =
      TrustLevel.medium := by
  exact (trust_level_priority (2/5) (3/10) (1/5) (1/10) 1 fiveResults none none
    (by decide)).2 (by decide) (by decide)

/-- C4 counterexample: reranking `parisEvidence` for `parisClaim` promotes
`chunkB` (entity bonus) to the top, yet the returned citation is built from
the pre-rerank top chunk `chunkA` — not from the returned result's top
chunk. -/
theorem rerank_by_entity_match_ce :
    ((rerank_by_entity_match parisClaim parisEvidence).evidence_chunks.head?).map
        (fun c => c.document_name) = some ("DocB") ∧
    (rerank_by_entity_match parisClaim parisEvidence).citation = some ("DocA") ∧
    chunkA.document_name = "DocA" ∧
    chunkB.document_name = "DocB" ∧
    ¬((rerank_by_entity_match parisClaim parisEvidence).citation = some ("DocB")) := by
  decide

/-- C4 witness: the amended rerank statement applied to the concrete
claim/evidence pair. -/
theorem rerank_by_entity_match_spec_witness :
    (rerank_by_entity_match parisClaim parisEvidence).citation =
      some parisEvidence.get_citation_string ∧
    (rerank_by_entity_match parisClaim parisEvidence).scores.Pairwise
      (fun a b => b ≤ a) := by
  have h := rerank_by_entity_match_spec parisClaim parisEvidence (by decide) (by decide)
    (by decide)
  exact ⟨h.2.2.1, h.2.1⟩

/-- C6 witness: raising chunk `c`'s raw vector score from 2 to 5 (others
fixed) does not decrease its fused combined score. -/
theorem hybrid_fusion_monotone_witness :
    fusedScore (3/5) (2/5) [("c", 2), ("d", 4)] [("d", 1), ("c", 3)] ("c") ≤
      fusedScore (3/5) (2/5) [("c", 5), ("d", 4)] [("d", 1), ("c", 3)] ("c") := by
  exact hybrid_fusion_monotone (3/5) (2/5) 2 5 ("c") [("d", 4)] [("d", 1), ("c", 3)]
    (by norm_num) (by norm_num) (by norm_num) (by decide) (by decide) (by decide)

/-- C7 witness: with threshold 1/2 over a two-result ranked list, only the
0.9-scoring chunk is kept. -/
theorem retrieve_evidence_spec_witness :
    (retrieve_evidence (1/2) searchTwo parisClaim ("hybrid")).evidence_chunks = [chunkA] ∧
    (retrieve_evidence (1/2) searchTwo parisClaim ("hybrid")).scores = [9/10] := by
  have h := (retrieve_evidence_spec (1/2) searchTwo parisClaim ("hybrid") (by decide)).1
    ⟨(chunkA, 9/10), by decide, by decide⟩
  constructor
  · rw [h.1]
    decide
  · rw [h.2]
    decide

end ConcreteEvaluationsC
